import Mathlib

/-!
Shallow embedding of `src/scripts/retrieve_daily_summaries.py`.

Python dictionaries are embedded as ordered association lists
(`List (String × α)`) with the faithful `dict.update` semantics
(replace the value in place when the key exists, append otherwise).
Dates are embedded at day granularity as `Nat` ordinals (the CLI and
the upstream service exchange `YYYY-MM-DD` day strings; `pd.to_datetime`
comparison becomes `Nat` comparison and `split('T')[0]` is the identity
under this model).  HTTP transport is an environment mapping the index
of each `requests.get` call to its outcome (a response, or a timeout).
-/

namespace Ncei

/-- Python `dict` embedded as an ordered association list. -/
abbrev PyDict (α : Type) := List (String × α)

/-- `d[k] = v` for a single key: replace in place when present, else append
(Python dict insertion semantics). -/
def dictInsert (d : PyDict α) (k : String) (v : α) : PyDict α :=
  if d.any (fun p => p.1 == k) then
    d.map (fun p => if p.1 == k then (k, v) else p)
  else d ++ [(k, v)]

/-- `d.update(other)` (Python dict update semantics). -/
def dictUpdate (d other : PyDict α) : PyDict α :=
  other.foldl (fun acc kv => dictInsert acc kv.1 kv.2) d

/-- `d[k]` as an option (a `none` models a Python `KeyError`). -/
def dictLookup (d : PyDict α) (k : String) : Option α :=
  (d.find? (fun p => p.1 == k)).map Prod.snd

/-- `k in d`. -/
def dictContains (d : PyDict α) (k : String) : Bool :=
  d.any (fun p => p.1 == k)

/-- The keys of a dict, in insertion order. -/
def dictKeys (d : PyDict α) : List String :=
  d.map Prod.fst

/-- Python `f"{i:02d}"` for the small indices used by the catalog. -/
def pad2 (n : Nat) : String :=
  if n < 10 then "0" ++ toString n else toString n

/-- Python comma-join of a list of strings. -/
def joinComma (xs : List String) : String :=
  String.intercalate ", " xs

/-! ## Variable metadata catalog -/

/-- An attribute record: an ordered string-to-string dict. -/
abbrev AttrRecord := PyDict String

/-- `ground_cover` list from `_get_soil_temps`. -/
def ground_cover : List String :=
  ["unknown", "grass", "fallow", "bare ground", "brome grass", "sod",
   "straw multch", "grass muck", "bare muck"]

/-- `depth_codes` list from `_get_soil_temps`. -/
def depth_codes : List String :=
  ["5", "10", "20", "50", "100", "150", "180"]

/-- The `sn`-prefixed (minimum) soil-temperature attribute record. -/
def soilMinRecord (depth ground : String) : AttrRecord :=
  [("units", "degrees_Celsius"),
   ("standard_name", "soil_temperature"),
   ("long_name", "minimum soil temperature at {depth} depth under {ground_cover}"),
   ("depth", depth ++ " cm"),
   ("ground_cover", ground),
   ("cell_methods", "time: minimum (interval: 1 day)")]

/-- The `sx`-prefixed (maximum) soil-temperature attribute record. -/
def soilMaxRecord (depth ground : String) : AttrRecord :=
  [("units", "degrees_Celsius"),
   ("standard_name", "soil_temperature"),
   ("long_name", "maximum soil temperature at {depth} depth under {ground_cover}"),
   ("depth", depth ++ " cm"),
   ("ground_cover", ground),
   ("cell_methods", "time: maximum (interval: 1 day)")]

/-- `_get_soil_temps()`: the doubly nested loop over ground covers and
depth codes, adding an `sn{i:02d}{j+1:02d}` and an `sx{i:02d}{j+1:02d}`
entry per pair via `dict.update`. -/
def get_soil_temps : PyDict AttrRecord :=
  (List.range ground_cover.length).foldl (fun acc i =>
    (List.range depth_codes.length).foldl (fun acc2 j =>
      let ground := ground_cover.getD i ""
      let depth := depth_codes.getD j ""
      let acc3 := dictUpdate acc2
        [("sn" ++ pad2 i ++ pad2 (j + 1), soilMinRecord depth ground)]
      dictUpdate acc3
        [("sx" ++ pad2 i ++ pad2 (j + 1), soilMaxRecord depth ground)]) acc) []

/-- `weather_types` list from `_get_weather_types` (22 descriptions). -/
def weather_types : List String :=
  ["Fog, ice fog, or freezing fog (may include heavy fog)",
   "Heavy fog or heaving freezing fog (not always distinguished from fog)",
   "Thunder",
   "Ice pellets, sleet, snow pellets, or small hail",
   "Hail (may include small hail)",
   "Glaze or rime",
   "Dust, volcanic ash, blowing dust, blowing sand, or blowing obstruction",
   "Smoke or haze",
   "Blowing or drifting snow",
   "Tornado, waterspout, or funnel cloud",
   "High or damaging winds",
   "Blowing spray",
   "Mist",
   "Drizzle",
   "Freezing drizzle",
   "Rain (may include freezing rain, drizzle, and freezing drizzle)",
   "Freezing rain",
   "Snow, snow pellets, snow grains, or ice crystals",
   "Unknown source of precipitation",
   "not used",
   "Ground fog",
   "Ice fog or freezing fog"]

/-- `_get_weather_types()`: `wt01`..`wt22` plus `wv` entries at the
hard-coded indices 1, 3, 7, 18, 20 (note the source spells the long name
"weather in the vincinity"). -/
def get_weather_types : PyDict AttrRecord :=
  (List.range' 1 22).foldl (fun acc i =>
    let acc2 := dictUpdate acc
      [("wt" ++ pad2 i,
        [("long_name", "weather type"),
         ("type", weather_types.getD (i - 1) "")])]
    if i = 1 ∨ i = 3 ∨ i = 7 ∨ i = 18 ∨ i = 20 then
      dictUpdate acc2
        [("wv" ++ pad2 i,
          [("long_name", "weather in the vincinity"),
           ("type", weather_types.getD (i - 1) "")])]
    else acc2) []

/-! ## Dict-semantics bridge

When every inserted key is fresh, Python `dict.update` is list append.
The freshness side conditions are decided on a cheap numeric encoding of
the keys (`strNat`), since `List.Nodup` transfers back along any map. -/

/-- Injective-on-ASCII numeric packing of a string, used only to make
key-distinctness checks cheap to decide. -/
def strNat (s : String) : Nat :=
  s.data.foldl (fun a c => a * 256 + c.toNat) 0

/-- The two soil-temperature entries inserted for a fixed ground cover `i`
and depth index `j` (the body of the innermost loop of `_get_soil_temps`). -/
def soil_entries (i j : Nat) : PyDict AttrRecord :=
  [("sn" ++ pad2 i ++ pad2 (j + 1),
    soilMinRecord (depth_codes.getD j "") (ground_cover.getD i "")),
   ("sx" ++ pad2 i ++ pad2 (j + 1),
    soilMaxRecord (depth_codes.getD j "") (ground_cover.getD i ""))]

/-- The soil-temperature catalog flattened to a plain list of entries. -/
def soil_pairs : PyDict AttrRecord :=
  ((List.range ground_cover.length).map
    (fun i => ((List.range depth_codes.length).map (soil_entries i)).flatten)).flatten

/-- The one or two weather-type entries inserted at loop index `i`
(the body of the loop of `_get_weather_types`). -/
def weather_entries (i : Nat) : PyDict AttrRecord :=
  ("wt" ++ pad2 i,
    [("long_name", "weather type"),
     ("type", weather_types.getD (i - 1) "")]) ::
  (if i = 1 ∨ i = 3 ∨ i = 7 ∨ i = 18 ∨ i = 20 then
    [("wv" ++ pad2 i,
      [("long_name", "weather in the vincinity"),
       ("type", weather_types.getD (i - 1) "")])]
   else [])

/-- The weather-type catalog flattened to a plain list of entries. -/
def weather_pairs : PyDict AttrRecord :=
  ((List.range' 1 22).map weather_entries).flatten

/-- The five core entries of the `data_attrs` dict literal in
`_get_data_attrs`. -/
def core_attrs : PyDict AttrRecord :=
  [("tmin",
    [("units", "degrees_Celsius"),
     ("standard_name", "air_temperature"),
     ("long_name", "daily minimum air temperature"),
     ("cell_methods", "time: minimum (interval: 1 day)"),
     ("units_metadata", "on-scale")]),
   ("tmax",
    [("units", "degrees_Celsius"),
     ("standard_name", "air_temperature"),
     ("long_name", "daily maximum air temperature"),
     ("cell_methods", "time: maximum (interval: 1 day)"),
     ("units_metadata", "on-scale")]),
   ("prcp",
    [("units", "mm"),
     ("standard_name", "lwe_thickness_of_precipitation_amount"),
     ("long_name", "daily total precipitation"),
     ("cell_methods", "time: sum (interval: 1 day)")]),
   ("snow",
    [("units", "mm"),
     ("standard_name", "thickness_of_snowfall_amount"),
     ("long_name", "daily total snowfall"),
     ("cell_methods", "time: sum (interval: 1 day)")]),
   ("snwd",
    [("units", "mm"),
     ("standard_name", "surface_snow_thickness"),
     ("long_name", "daily snow depth"),
     ("cell_methods", "time: point")])]

/-- The dict literal passed to the first `data_attrs.update(...)` in the
`all_vars` branch of `_get_data_attrs` (note the `adpt` entry really uses
the key "long name", with a space, in the source). -/
def secondary_attrs : PyDict AttrRecord :=
  [("acmc",
    [("units", "percent"),
     ("standard_name", "cloud_area_fraction"),
     ("long_name", "average cloudiness midnight to midnight"),
     ("cell_methods", "time: mean (interval: 1 day)"),
     ("method", "ceilometer")]),
   ("acmh",
    [("units", "percent"),
     ("standard_name", "cloud_area_fraction"),
     ("long_name", "average cloudiness midnight to midnight"),
     ("cell_methods", "time: mean (interval: 1 day)"),
     ("method", "manual")]),
   ("acsc",
    [("units", "percent"),
     ("standard_name", "cloud_area_fraction"),
     ("long_name", "average cloudiness sunrise to sunset"),
     ("method", "ceilometer")]),
   ("acsh",
    [("units", "percent"),
     ("standard_name", "cloud_area_fraction"),
     ("long_name", "average cloudiness sunrise to sunset"),
     ("method", "manual")]),
   ("adpt",
    [("units", "degrees_Celsius"),
     ("standard_name", "dew_point_temperature"),
     ("long name", "average dew point temperature for the day"),
     ("cell_methods", "time: mean (interval: 1 day)"),
     ("units_metadata", "on-scale")]),
   ("aslp",
    [("units", "hPa"),
     ("standard_name", "air_pressure_at_sea_level"),
     ("long_name", "average sea level pressure for the day"),
     ("cell_methods", "time: mean (interval: 1 day)")]),
   ("astp",
    [("units", "hPa"),
     ("standard_name", "air_pressure"),
     ("long_name", "average station pressure for the day"),
     ("cell_methods", "time: mean (interval: 1 day)")]),
   ("awbt",
    [("units", "degrees_Celsius"),
     ("standard_name", "wet_bulb_temperature"),
     ("long_name", "average wet bulb temperature for the day"),
     ("cell_methods", "time: mean (interval: 1 day)"),
     ("units_metadata", "on-scale")]),
   ("awdr",
    [("units", "degrees"),
     ("standard_name", "wind_from_direction"),
     ("long_name", "average wind direction for the day"),
     ("cell_methods", "time: mean (interval: 1 day)"),
     ("units_metadata", "direction_cw_from_north")]),
   ("awnd",
    [("units", "m/s"),
     ("standard_name", "wind_speed"),
     ("long_name", "average wind speed for the day"),
     ("cell_methods", "time: mean (interval: 1 day)")]),
   ("daev",
    [("units", "days"),
     ("standard_name", "number_of_days_in_evaporation_observation"),
     ("long_name", "number of days included in the multiday evaporation total (mdev)")]),
   ("dapr",
    [("units", "days"),
     ("standard_name", "number_of_days_in_precipitation_observation"),
     ("long_name", "number of days included in the multiday precipitation total (mdpr)")]),
   ("dasf",
    [("units", "days"),
     ("standard_name", "number_of_days_in_snowfall_observation"),
     ("long_name", "number of days included in the multiday snowfall total (mdsf)")]),
   ("datn",
    [("units", "days"),
     ("standard_name", "number_of_days_in_min_temperature_observation"),
     ("long_name", "number of days included in the multiday minimum temperature (mdtn)")]),
   ("datx",
    [("units", "days"),
     ("standard_name", "number_of_days_in_max_temperature_observation"),
     ("long_name", "number of days included in the multiday maximum temperature (mdtx)")]),
   ("dawm",
    [("units", "days"),
     ("standard_name", "number_of_days_in_wind_movement_observation"),
     ("long_name", "number of days included in the multiday wind movement (mdwm)")]),
   ("dwpr",
    [("units", "days"),
     ("standard_name", "number_of_days_with_nonzero_precipitation_in_precipitation_observation"),
     ("long_name", "number of days with non-zero precipitation included in the multiday precipitation total (mdpr)")]),
   ("evap",
    [("units", "mm"),
     ("standard_name", "lwe_thickness_of_water_evaporation_amount"),
     ("long_name", "daily total evaporation from evaporation pan"),
     ("cell_methods", "time: sum (interval: 1 day)")]),
   ("fmtm",
    [("units", "time_of_day"),
     ("standard_name", "time_of_fastest_1min_wind"),
     ("long_name", "time of fastest 1-minute wind speed"),
     ("units_metadata", "time_format_HHMM")]),
   ("frgb",
    [("units", "cm"),
     ("standard_name", "depth_at_base_of_unfrozen_ground"),
     ("long_name", "depth of base of frozen ground layer")]),
   ("frgt",
    [("units", "cm"),
     ("standard_name", "depth_at_top_of_frozen_ground_layer"),
     ("long_name", "depth of top of frozen ground layer")]),
   ("frth",
    [("units", "cm"),
     ("standard_name", "lwe_thickness_of_frozen_water_content_of_soil_layer"),
     ("long_name", "thickness of frozen ground layer")]),
   ("gaht",
    [("units", "cm"),
     ("standard_name", "difference_between_river_and_gauge_height"),
     ("long_name", "difference between river and gauge height")]),
   ("mdev",
    [("units", "mm"),
     ("standard_name", "lwe_thickness_of_water_evaporation_amount"),
     ("long_name", "multiday evaporation total (use with daev)"),
     ("cell_methods", "time: sum (interval: see variable daev)")]),
   ("mdpr",
    [("units", "mm"),
     ("standard_name", "lwe_thickness_of_precipitation_amount"),
     ("long_name", "multiday precipitation total (use with dapr)"),
     ("cell_methods", "time: sum (interval: see variable dapr)")]),
   ("mdsf",
    [("units", "mm"),
     ("standard_name", "lwe_thickness_of_snowfall_amount"),
     ("long_name", "multiday snowfall total (use with dasf)"),
     ("cell_methods", "time: sum (interval: see variable dasf)")]),
   ("mdtn",
    [("units", "degrees_Celsius"),
     ("standard_name", "air_temperature"),
     ("long_name", "multiday minimum temperature (use with datn)"),
     ("cell_methods", "time: minimum (interval: see variable datn)")]),
   ("mdtx",
    [("units", "degrees_Celsius"),
     ("standard_name", "air_temperature"),
     ("long_name", "multiday maximum temperature (use with datx)"),
     ("cell_methods", "time: maximum (interval: see variable datx)")]),
   ("mdwm",
    [("units", "km"),
     ("standard_name", "wind_movement"),
     ("long_name", "multiday wind movement (use with dawm)"),
     ("cell_methods", "time: sum (interval: see variable dawm)")]),
   ("mnpn",
    [("units", "degrees_Celsius"),
     ("standard_name", "temperature_in_evaporation_pan"),
     ("long_name", "minimum temperature in evaporation pan"),
     ("cell_methods", "time: minimum (interval: 1 day)")]),
   ("mxpn",
    [("units", "degrees_Celsius"),
     ("standard_name", "temperature_in_evaporation_pan"),
     ("long_name", "maximum temperature in evaporation pan"),
     ("cell_methods", "time: maximum (interval: 1 day)")]),
   ("pgtm",
    [("units", "time_of_day"),
     ("standard_name", "time_of_peak_wind_gust"),
     ("long_name", "time of peak wind gust"),
     ("units_metadata", "time_format_HHMM")]),
   ("psun",
    [("units", "percent"),
     ("standard_name", "sunshine_fraction"),
     ("long_name", "percent of possible sunshine")]),
   ("rhav",
    [("units", "percent"),
     ("standard_name", "relative_humidity"),
     ("long_name", "average relative humidity for the day"),
     ("cell_methods", "time: mean (interval: 1 day)")]),
   ("rhmn",
    [("units", "percent"),
     ("standard_name", "relative_humidity"),
     ("long_name", "minimum relative humidity for the day"),
     ("cell_methods", "time: minimum (interval: 1 day)")]),
   ("rhmx",
    [("units", "percent"),
     ("standard_name", "relative_humidity"),
     ("long_name", "maximum relative humidity for the day"),
     ("cell_methods", "time: maximum (interval: 1 day)")]),
   ("taxn",
    [("units", "degrees_Celsius"),
     ("standard_name", "air_temperature"),
     ("long_name", "average temperature for the day computed as tmax + tmin / 2"),
     ("cell_methods", "time: mean (interval: 1 day)")]),
   ("tavg",
    [("units", "degrees_Celsius"),
     ("standard_name", "air_temperature"),
     ("long_name", "average temperature for the day from hourly observations"),
     ("cell_methods", "time: mean (interval: 1 day)")]),
   ("thic",
    [("units", "mm"),
     ("standard_name", "floating_ice_thickness"),
     ("long_name", "thickness of ice on water")]),
   ("tobs",
    [("units", "degrees_Celsius"),
     ("standard_name", "air_temperature"),
     ("long_name", "temperature at the time of observation")]),
   ("tsun",
    [("units", "minutes"),
     ("standard_name", "sunshine_duration"),
     ("long_name", "total sunshine duration for the day"),
     ("cell_methods", "time: sum (interval: 1 day)")]),
   ("wdf1",
    [("units", "degrees"),
     ("standard_name", "wind_from_direction"),
     ("long_name", "direction of fastest 1-minute wind"),
     ("units_metadata", "direction_cw_from_north")]),
   ("wdf2",
    [("units", "degrees"),
     ("standard_name", "wind_from_direction"),
     ("long_name", "direction of fastest 2-minute wind"),
     ("units_metadata", "direction_cw_from_north")]),
   ("wdf5",
    [("units", "degrees"),
     ("standard_name", "wind_from_direction"),
     ("long_name", "direction of fastest 5-minute wind"),
     ("units_metadata", "direction_cw_from_north")]),
   ("wdfg",
    [("units", "degrees"),
     ("standard_name", "wind_from_direction"),
     ("long_name", "direction of peak gust"),
     ("units_metadata", "direction_cw_from_north")]),
   ("wdfi",
    [("units", "degrees"),
     ("standard_name", "wind_from_direction"),
     ("long_name", "direction of highest instantaneous wind"),
     ("units_metadata", "direction_cw_from_north")]),
   ("wdfm",
    [("units", "degrees"),
     ("standard_name", "wind_from_direction"),
     ("long_name", "fastest mile wind direction"),
     ("units_metadata", "direction_cw_from_north")]),
   ("wdmv",
    [("units", "km"),
     ("standard_name", "wind_movement"),
     ("long_name", "wind movement for the day"),
     ("cell_methods", "time: sum (interval: 1 day)")]),
   ("wesd",
    [("units", "mm"),
     ("standard_name", "lwe_thickness_of_surface_snow_amount"),
     ("long_name", "water equivalent of snow on the ground")]),
   ("wesf",
    [("units", "mm"),
     ("standard_name", "lwe_thickness_of_snowfall_amount"),
     ("long_name", "water equivalent of snowfall")]),
   ("wsf1",
    [("units", "m/s"),
     ("standard_name", "wind_speed"),
     ("long_name", "fastest 1-minute wind speed")]),
   ("wsf2",
    [("units", "m/s"),
     ("standard_name", "wind_speed"),
     ("long_name", "fastest 2-minute wind speed")]),
   ("wsf5",
    [("units", "m/s"),
     ("standard_name", "wind_speed"),
     ("long_name", "fastest 5-minute wind speed")]),
   ("wsfg",
    [("units", "m/s"),
     ("standard_name", "wind_speed"),
     ("long_name", "peak gust wind speed")]),
   ("wsfi",
    [("units", "m/s"),
     ("standard_name", "wind_speed"),
     ("long_name", "highest instantaneous wind speed")]),
   ("wsfm",
    [("units", "m/s"),
     ("standard_name", "wind_speed"),
     ("long_name", "fastest mile wind speed")])]

/-- `_get_data_attrs(all_vars)`: the core dict, extended in `all_vars`
mode by three successive `update` calls (secondary variables, weather
types, soil temperatures). -/
def get_data_attrs (all_vars : Bool) : PyDict AttrRecord :=
  let data_attrs := core_attrs
  if all_vars then
    dictUpdate (dictUpdate (dictUpdate data_attrs secondary_attrs)
      get_weather_types) get_soil_temps
  else data_attrs

/-- The all-variables catalog flattened to a plain entry list. -/
def all_attrs : PyDict AttrRecord :=
  core_attrs ++ secondary_attrs ++ weather_pairs ++ soil_pairs

/-! ## Availability prober (`_check_station_data`)

The HTTP transport is an environment `Nat → TransportResult` giving the
outcome of each successive `requests.get` of one station's processing:
index 0 the full-history search, index 1 the range-scoped search, index 2
the data retrieval.  A `timeout` models `requests.exceptions.Timeout`.
`ProbeOut.queries` counts the search queries actually issued. -/

/-- `results[0]` of a search response, as used by the prober. -/
structure SearchResult where
  dataTypes : List String
  lon : Int
  lat : Int
  stationName : String
  startDate : Nat
  endDate : Nat
deriving DecidableEq

/-- One element of the `errors` list of an error response body. -/
structure ErrorItem where
  field : String
  message : String
deriving DecidableEq

/-- A transport response: status code plus the parts of the parsed body
the script reads (`results`, `errorMessage`, `errors.message` for the 500
shape, the `errors` list for other error shapes, and the number of CSV
rows for the data endpoint). -/
structure Response where
  status : Nat
  results : List SearchResult
  errorMessage : String
  errorsMessage : String
  errorsList : Option (List ErrorItem)
  csvRows : Nat
deriving DecidableEq

/-- Outcome of one `requests.get(url, timeout=60)`. -/
inductive TransportResult where
  | timeout
  | resp (r : Response)

/-- The Python exceptions relevant to the script's control flow. -/
inductive PyExc where
  | typeError
  | timeoutError
  | keyError (k : String)
  | valueError
deriving DecidableEq

/-- The tuple `_check_station_data` returns on success. -/
structure ProberResult where
  vars : List String
  lon : Int
  lat : Int
  start_date : Nat
  end_date : Nat
  name : String
deriving DecidableEq

/-- A prober run: the returned value (`none` is the Python `None`
sentinel), the number of search queries issued, and the printed lines. -/
structure ProbeOut where
  result : Option ProberResult
  queries : Nat
  printed : List String
deriving DecidableEq

/-- The `field_dict` translation table of the error-printing loops. -/
def field_dict : PyDict String :=
  [("startDate", "start"), ("endDate", "end")]

/-- The lines printed by the `for error in request.json()['errors']` loop;
`suffix` is the extra text the first query appends to unrecognized
fields. -/
def fieldErrorLines (errors : List ErrorItem) (suffix : String) : List String :=
  errors.map (fun e =>
    match dictLookup field_dict e.field with
    | some f =>
        "Error in field " ++ f ++ ": check input argument(s) \x27" ++ f
          ++ "\x27 and try again."
    | none => "Error in field " ++ e.field ++ ": " ++ e.message ++ suffix)

/-- The lines printed for a non-200, non-500 response. -/
def errorLines (station : String) (r : Response) (suffix : String) : List String :=
  ["Failed to retrieve data from " ++ station ++ ".",
   toString r.status ++ ": " ++ r.errorMessage] ++
  (match r.errorsList with
   | some es => fieldErrorLines es suffix
   | none => [])

/-- The start-date clamp of `_check_station_data` (replace the requested
start by the station's start when the request is earlier). -/
def adjustedStart (start_date station_start : Nat) : Nat :=
  if start_date < station_start then station_start else start_date

/-- The end-date clamp of `_check_station_data` (replace the requested
end by the station's end when the request is later). -/
def adjustedEnd (end_date station_end : Nat) : Nat :=
  if station_end < end_date then station_end else end_date

/-- The wanted-list `vars` of core-variable mode. -/
def core_vars : List String := ["TMIN", "TMAX", "PRCP", "SNOW", "SNWD"]

/-- `_check_station_data(station, dataset, start_date, end_date, all_vars)`.
Faithful to the source control flow; in particular the 500 branch of the
first query only prints and falls through to the second query (it has no
`return`), while every other error branch returns the `None` sentinel. -/
def checkStationData (station : String) (start_date end_date : Nat) (all_vars : Bool)
    (env : Nat → TransportResult) : Except PyExc ProbeOut :=
  match env 0 with
  | .timeout => .error .timeoutError
  | .resp r1 =>
    let phase1 : Sum ProbeOut (List String) :=
      if r1.status = 200 then
        if r1.results.length = 0 then
          .inl ⟨none, 1, ["No data available for " ++ station ++ ". Check station ID."]⟩
        else .inr []
      else if r1.status = 500 then
        .inr ["Failed to retrieve data from " ++ station ++ ".",
              toString r1.status ++ ": " ++ r1.errorMessage,
              r1.errorsMessage]
      else
        .inl ⟨none, 1, errorLines station r1 ". Check station ID."⟩
    match phase1 with
    | .inl out => .ok out
    | .inr p1 =>
      match env 1 with
      | .timeout => .error .timeoutError
      | .resp r2 =>
        if r2.status = 200 then
          match r2.results with
          | [] =>
            .ok ⟨none, 2, p1 ++
              ["No data available for " ++ station ++ " over dates "
                ++ toString start_date ++ "-" ++ toString end_date
                ++ ". Check date range."]⟩
          | res0 :: _ =>
            let data_type_ids := res0.dataTypes
            let vars_in_dataset :=
              if all_vars then data_type_ids
              else core_vars.filter (fun v => data_type_ids.contains v)
            let vars := if all_vars then data_type_ids else core_vars
            if vars_in_dataset.length = 0 then
              .ok ⟨none, 2, p1 ++
                ["The station exists " ++ station
                   ++ " and has data, but no core elements available.",
                 "Core elements include: TMIN, TMAX, PRCP, SNOW, SNWD",
                 "You may want to review the station page to find available data:",
                 "https://www.ncdc.noaa.gov/cdo-web/datasets/GHCND/stations/GHCND:"
                   ++ station ++ "/detail"]⟩
            else
              let subsetLines :=
                if vars_in_dataset.length < vars.length then
                  ["Elements "
                     ++ joinComma (vars.filter (fun v => !(vars_in_dataset.contains v)))
                     ++ " not available at " ++ station ++ " for dates "
                     ++ toString start_date ++ "-" ++ toString end_date ++ ".",
                   "Available elements: " ++ joinComma vars_in_dataset]
                else []
              let s2 := adjustedStart start_date res0.startDate
              let startLines :=
                if start_date < res0.startDate then
                  ["Adjusted start date to " ++ toString s2 ++ " at station "
                     ++ station ++ " based on available data."]
                else []
              let e2 := adjustedEnd end_date res0.endDate
              let endLines :=
                if res0.endDate < end_date then
                  ["Adjusted end date to " ++ toString e2 ++ " at station "
                     ++ station ++ " based on available data."]
                else []
              .ok ⟨some ⟨vars_in_dataset, res0.lon, res0.lat, s2, e2, res0.stationName⟩,
                2, p1 ++ subsetLines ++ startLines ++ endLines⟩
        else if r2.status = 500 then
          .ok ⟨none, 2, p1 ++
            ["Failed to retrieve data from " ++ station ++ ".",
             toString r2.status ++ ": " ++ r2.errorMessage,
             r2.errorsMessage ++ ". Check date range."]⟩
        else
          .ok ⟨none, 2, p1 ++ errorLines station r2 ""⟩

/-! ## Per-station pipeline and main program (`__main__`) -/

/-- ASCII lowering of one character (model of `str.lower` per char). -/
def lowerChar (c : Char) : Char :=
  if 65 ≤ c.toNat ∧ c.toNat ≤ 90 then Char.ofNat (c.toNat + 32) else c

/-- `s.lower()`. -/
def pyLower (s : String) : String :=
  ⟨s.data.map lowerChar⟩

/-- The attribute-attachment loop
`for s in data: data[s].attrs = _get_data_attrs(all_vars)[s]`:
a missing catalog key raises `KeyError` at the first offender. -/
def attachAttrs : List String → PyDict AttrRecord → Except PyExc (PyDict AttrRecord)
  | [], _ => .ok []
  | v :: vs, cat =>
    match dictLookup cat v with
    | none => .error (.keyError v)
    | some a =>
      match attachAttrs vs cat with
      | .error e => .error e
      | .ok rest => .ok ((v, a) :: rest)

/-- One station's processing: the written dataset's per-variable
attribute records (`none` when the station was skipped), plus the
printed lines. -/
structure StationStep where
  saved : Option (PyDict AttrRecord)
  printed : List String
deriving DecidableEq

/-- The body of the non-info per-station loop.  The `try` block catches
only `TypeError` (the unpack of the prober's `None` sentinel); every
other exception — a transport timeout, a catalog `KeyError` — escapes. -/
def processStation (station : String) (start_date end_date : Nat) (all_vars : Bool)
    (env : Nat → TransportResult) : Except PyExc StationStep :=
  match checkStationData station start_date end_date all_vars env with
  | .error e => .error e
  | .ok out =>
    match out.result with
    | none => .ok ⟨none, out.printed⟩
    | some pr =>
      match env 2 with
      | .timeout => .error .timeoutError
      | .resp r =>
        if r.status ≠ 200 then
          .ok ⟨none, out.printed
            ++ ["Retrieving data from " ++ station ++ "...", ""]
            ++ errorLines station r ""⟩
        else if r.csvRows = 0 then
          .ok ⟨none, out.printed
            ++ ["Retrieving data from " ++ station ++ "...done.",
                "No data available for " ++ station ++ ". Check station ID and date range."]⟩
        else
          match attachAttrs (pr.vars.map pyLower) (get_data_attrs all_vars) with
          | .error e => .error e
          | .ok va =>
            .ok ⟨some va, out.printed
              ++ ["Retrieving data from " ++ station ++ "...done."]⟩

/-- The non-info per-station loop (`for station in stations`): an escaped
exception aborts the whole loop, leaving later stations unprocessed. -/
def runStations (stations : List String) (start_date end_date : Nat) (all_vars : Bool)
    (env : String → Nat → TransportResult) : Except PyExc (List StationStep) :=
  match stations with
  | [] => .ok []
  | st :: rest =>
    match processStation st start_date end_date all_vars (env st) with
    | .error e => .error e
    | .ok step =>
      match runStations rest start_date end_date all_vars env with
      | .error e => .error e
      | .ok steps => .ok (step :: steps)

/-- The lines the info branch prints for one successfully probed station. -/
def infoLines (station : String) (pr : ProberResult) : List String :=
  ["Station: " ++ station,
   "Station name: " ++ pr.name,
   "Variables: " ++ joinComma pr.vars,
   "Longitude: " ++ toString pr.lon,
   "Latitude: " ++ toString pr.lat,
   "Start date: " ++ toString pr.start_date,
   "End date: " ++ toString pr.end_date,
   "Site URL: https://www.ncdc.noaa.gov/cdo-web/datasets/GHCND/stations/GHCND:"
     ++ station ++ "/detail"]

/-- The info-mode per-station loop. -/
def runInfo (stations : List String) (start_date end_date : Nat) (all_vars : Bool)
    (env : String → Nat → TransportResult) : Except PyExc (List StationStep) :=
  match stations with
  | [] => .ok []
  | st :: rest =>
    match checkStationData st start_date end_date all_vars (env st) with
    | .error e => .error e
    | .ok out =>
      let step : StationStep :=
        match out.result with
        | none => ⟨none, out.printed⟩
        | some pr => ⟨none, out.printed ++ infoLines st pr⟩
      match runInfo rest start_date end_date all_vars env with
      | .error e => .error e
      | .ok steps => .ok (step :: steps)

/-- The parsed command-line arguments. -/
structure Args where
  station : List String
  info : Bool
  all : Bool
  start : String
  endDate : String
  path : String

/-- Days per month with the Gregorian leap rule. -/
def daysInMonth (y m : Nat) : Nat :=
  if m = 2 then (if (y % 4 = 0 ∧ y % 100 ≠ 0) ∨ y % 400 = 0 then 29 else 28)
  else if m = 4 ∨ m = 6 ∨ m = 9 ∨ m = 11 then 30 else 31

/-- Numeric value of a digit string. -/
def digitsVal (s : String) : Nat :=
  s.data.foldl (fun a c => a * 10 + (c.toNat - 48)) 0

/-- Every character is an ASCII digit. -/
def allDigits (s : String) : Bool :=
  s.data.all (fun c => Nat.blt 47 c.toNat && Nat.blt c.toNat 58)

/-- Model of the external library call
`pd.to_datetime(s, format=YYYY-MM-DD)` succeeding: four-digit year,
two-digit month 01-12, two-digit day valid for that month. -/
def validYMD (s : String) : Bool :=
  match (s.data.splitOn '-').map (fun l => (⟨l⟩ : String)) with
  | [ys, ms, ds] =>
    (ys.length == 4) && (ms.length == 2) && (ds.length == 2) &&
    allDigits ys && allDigits ms && allDigits ds &&
    Nat.ble 1 (digitsVal ms) && Nat.ble (digitsVal ms) 12 &&
    Nat.ble 1 (digitsVal ds) &&
    Nat.ble (digitsVal ds) (daysInMonth (digitsVal ys) (digitsVal ms))
  | _ => false

/-- `__main__`: validate the two date arguments (a `ValueError` is fatal
before any station is touched), then run the info or retrieval loop.
`dateOrd` is the model's day-ordinal reading of a validated date
string. -/
def runMain (args : Args) (dateOrd : String → Nat)
    (env : String → Nat → TransportResult) : Except PyExc (List StationStep) :=
  if validYMD args.start && validYMD args.endDate then
    if args.info then
      runInfo args.station (dateOrd args.start) (dateOrd args.endDate) args.all env
    else
      runStations args.station (dateOrd args.start) (dateOrd args.endDate) args.all env
  else .error .valueError

/-! ## Support definitions for the verification theorems -/

/-- A transport environment whose two search queries both succeed with a
single result carrying the given data types, coordinates, name and
station coverage dates, and whose retrieval returns one CSV row. -/
def successEnv (dts : List String) (lon lat : Int) (name : String) (ss se : Nat) :
    Nat → TransportResult :=
  fun _ => .resp
    { status := 200,
      results := [{ dataTypes := dts, lon := lon, lat := lat, stationName := name,
                    startDate := ss, endDate := se }],
      errorMessage := "", errorsMessage := "", errorsList := none, csvRows := 1 }

/-- The value a prober run returns (the Python return value; `none` both
for the sentinel and for an escaped exception). -/
def proberValue : Except PyExc ProbeOut → Option ProberResult
  | .ok out => out.result
  | .error _ => none

/-- The lines a prober run printed. -/
def proberPrinted : Except PyExc ProbeOut → List String
  | .ok out => out.printed
  | .error _ => []

/-- The two-character family prefix of a variable code. -/
def code_group (k : String) : String :=
  ⟨k.data.take 2⟩

/-- Decoder check for one soil-temperature code: a two-letter `sn`/`sx`
prefix, then two digits giving a ground-cover index below 9, then two
digits giving a 1-based depth index between 1 and 7; re-encoding the two
decoded indices with `pad2` reproduces the code. -/
def soilCodeCheck (k : String) : Bool :=
  match k.data with
  | [c1, c2, g1, g2, d1, d2] =>
    ((⟨[c1, c2]⟩ : String) == "sn" || (⟨[c1, c2]⟩ : String) == "sx") &&
    allDigits ⟨[g1, g2]⟩ && allDigits ⟨[d1, d2]⟩ &&
    Nat.blt (digitsVal ⟨[g1, g2]⟩) 9 &&
    Nat.ble 1 (digitsVal ⟨[d1, d2]⟩) && Nat.ble (digitsVal ⟨[d1, d2]⟩) 7 &&
    (k == (⟨[c1, c2]⟩ : String) ++ pad2 (digitsVal ⟨[g1, g2]⟩)
            ++ pad2 (digitsVal ⟨[d1, d2]⟩))
  | _ => false

/-- Completeness check of one catalog entry: weather-type family entries
(`wt`/`wv`) carry a long name and a type; the `adpt` entry carries units,
standard name and its description under the misspelled key "long name";
every other entry carries units, standard name and `long_name`. -/
def attrsComplete (k : String) (a : AttrRecord) : Bool :=
  if code_group k == "wt" || code_group k == "wv" then
    dictContains a "long_name" && dictContains a "type"
  else if k == "adpt" then
    dictContains a "units" && dictContains a "standard_name" && dictContains a "long name"
  else
    dictContains a "units" && dictContains a "standard_name" && dictContains a "long_name"

/-- C1 failing input, first query: a 500 response. -/
def c1resp500 : Response :=
  { status := 500, results := [], errorMessage := "Internal Server Error",
    errorsMessage := "An error occurred", errorsList := none, csvRows := 0 }

/-- C1 failing input, second query: a successful search response. -/
def c1resp200 : Response :=
  { status := 200,
    results := [{ dataTypes := core_vars, lon := 10, lat := 20,
                  stationName := "TEST STATION", startDate := 0, endDate := 100 }],
    errorMessage := "", errorsMessage := "", errorsList := none, csvRows := 1 }

/-- C1 failing transport environment: 500 on the first (full-history)
query, success on the second. -/
def c1env : Nat → TransportResult :=
  fun n => if n = 0 then .resp c1resp500 else .resp c1resp200

/-- C2/C8 environment: first query succeeds with zero results. -/
def emptyResultsEnv : Nat → TransportResult :=
  fun _ => .resp { status := 200, results := [], errorMessage := "",
                   errorsMessage := "", errorsList := none, csvRows := 0 }

/-- C2 failing environment: the service reports a variable code `XYZW`
that the all-variables catalog does not contain. -/
def c2envUnknownVar : String → Nat → TransportResult :=
  fun _ => successEnv ["XYZW"] 10 20 "TEST STATION" 0 100

/-- C2 failing environment: every request times out. -/
def c2envTimeout : String → Nat → TransportResult :=
  fun _ _ => .timeout

/-- C2 witness environment: per-station copy of `emptyResultsEnv`. -/
def c2envEmpty : String → Nat → TransportResult :=
  fun _ => emptyResultsEnv

/-- C9 witness arguments: a malformed month in the start date. -/
def c9badArgs : Args :=
  { station := ["USW00094728"], info := false, all := false,
    start := "2020-13-01", endDate := "2020-01-02", path := "." }

/-! ## Dict-semantics bridge lemmas -/

lemma dictUpdate_append (d l₁ l₂ : PyDict α) :
    dictUpdate d (l₁ ++ l₂) = dictUpdate (dictUpdate d l₁) l₂ :=
  List.foldl_append ..

lemma dictContains_eq_false {d : PyDict α} {k : String} (h : k ∉ dictKeys d) :
    dictContains d k = false := by
  simp only [dictContains, List.any_eq_false]
  intro p hp
  simp only [beq_iff_eq]
  intro hk
  exact h (hk ▸ List.mem_map_of_mem Prod.fst hp)

lemma dictInsert_fresh (d : PyDict α) (k : String) (v : α) (h : k ∉ dictKeys d) :
    dictInsert d k v = d ++ [(k, v)] := by
  have hc := dictContains_eq_false (d := d) h
  simp only [dictContains] at hc
  simp [dictInsert, hc]

lemma dictUpdate_eq_append (L : PyDict α) :
    ∀ d : PyDict α, (dictKeys d ++ dictKeys L).Nodup → dictUpdate d L = d ++ L := by
  induction L with
  | nil => intro d _; simp [dictUpdate]
  | cons kv t ih =>
    intro d h
    have hk : kv.1 ∉ dictKeys d := by
      intro hmem
      have := (List.nodup_append.mp h).2.2
      exact this hmem (by simp [dictKeys])
    have hstep : dictUpdate d (kv :: t) = dictUpdate (dictInsert d kv.1 kv.2) t := rfl
    rw [hstep, dictInsert_fresh d kv.1 kv.2 hk, ih (d ++ [(kv.1, kv.2)]) ?_]
    · simp
    · have : dictKeys (d ++ [(kv.1, kv.2)]) ++ dictKeys t
          = dictKeys d ++ kv.1 :: dictKeys t := by
        simp [dictKeys]
      rw [this]
      simpa [dictKeys] using h

lemma foldl_dictUpdate_map (g : Nat → PyDict α) (ns : List Nat) :
    ∀ d : PyDict α,
      ns.foldl (fun acc j => dictUpdate acc (g j)) d = dictUpdate d ((ns.map g).flatten) := by
  induction ns with
  | nil => intro d; simp [dictUpdate]
  | cons n t ih => intro d; simp [List.foldl_cons, ih, dictUpdate_append]

lemma get_soil_temps_eq_update : get_soil_temps = dictUpdate [] soil_pairs := by
  have hinner : ∀ (i : Nat) (acc : PyDict AttrRecord),
      (List.range depth_codes.length).foldl (fun acc2 j =>
        let ground := ground_cover.getD i ""
        let depth := depth_codes.getD j ""
        let acc3 := dictUpdate acc2
          [("sn" ++ pad2 i ++ pad2 (j + 1), soilMinRecord depth ground)]
        dictUpdate acc3
          [("sx" ++ pad2 i ++ pad2 (j + 1), soilMaxRecord depth ground)]) acc
      = dictUpdate acc (((List.range depth_codes.length).map (soil_entries i)).flatten) := by
    intro i acc
    rw [← foldl_dictUpdate_map (soil_entries i) (List.range depth_codes.length) acc]
    refine List.foldl_ext _ _ acc (fun acc2 j _ => ?_)
    show dictUpdate (dictUpdate acc2 _) _ = _
    rw [show soil_entries i j
        = [("sn" ++ pad2 i ++ pad2 (j + 1),
            soilMinRecord (depth_codes.getD j "") (ground_cover.getD i ""))]
          ++ [("sx" ++ pad2 i ++ pad2 (j + 1),
            soilMaxRecord (depth_codes.getD j "") (ground_cover.getD i ""))] from rfl,
      dictUpdate_append]
  unfold get_soil_temps soil_pairs
  rw [← foldl_dictUpdate_map
    (fun i => ((List.range depth_codes.length).map (soil_entries i)).flatten)
    (List.range ground_cover.length) []]
  exact List.foldl_ext _ _ [] (fun acc i _ => hinner i acc)

set_option maxRecDepth 40000 in
lemma soil_keys_nat_nodup : ((dictKeys soil_pairs).map strNat).Nodup := by decide

/-- `_get_soil_temps()` builds exactly its flattened entry list: every
generated key is fresh when inserted. -/
theorem get_soil_temps_eq : get_soil_temps = soil_pairs := by
  rw [get_soil_temps_eq_update,
    dictUpdate_eq_append soil_pairs [] (by simpa using soil_keys_nat_nodup.of_map)]
  rfl

lemma get_weather_types_eq_update : get_weather_types = dictUpdate [] weather_pairs := by
  unfold get_weather_types weather_pairs
  rw [← foldl_dictUpdate_map weather_entries (List.range' 1 22) []]
  refine List.foldl_ext _ _ [] (fun acc i _ => ?_)
  by_cases h : i = 1 ∨ i = 3 ∨ i = 7 ∨ i = 18 ∨ i = 20
  · simp only [h, if_true, weather_entries]
    rw [show ∀ a b : String × AttrRecord, [a, b] = [a] ++ [b] from fun _ _ => rfl,
      dictUpdate_append]
  · simp only [h, if_false, weather_entries]

lemma weather_keys_nat_nodup : ((dictKeys weather_pairs).map strNat).Nodup := by decide

/-- `_get_weather_types()` builds exactly its flattened entry list. -/
theorem get_weather_types_eq : get_weather_types = weather_pairs := by
  rw [get_weather_types_eq_update,
    dictUpdate_eq_append weather_pairs [] (by simpa using weather_keys_nat_nodup.of_map)]
  rfl

set_option maxRecDepth 100000 in
lemma all_keys_nat_nodup : ((dictKeys all_attrs).map strNat).Nodup := by decide

lemma all_keys_nodup : (dictKeys all_attrs).Nodup :=
  all_keys_nat_nodup.of_map

/-- In all-variables mode every key added by the three `update` calls is
fresh, so the catalog is the concatenation of its four groups. -/
theorem get_data_attrs_true_eq : get_data_attrs true = all_attrs := by
  have h := all_keys_nodup
  rw [show all_attrs = core_attrs ++ secondary_attrs ++ weather_pairs ++ soil_pairs from rfl]
    at h
  simp only [dictKeys, List.map_append] at h
  have h1 : dictUpdate core_attrs secondary_attrs = core_attrs ++ secondary_attrs := by
    refine dictUpdate_eq_append _ _ ?_
    refine List.Nodup.sublist ?_ h
    simp only [dictKeys, List.map_append, ← List.append_assoc]
    exact (List.sublist_append_left _ _).trans (List.sublist_append_left _ _)
  have h2 : dictUpdate (core_attrs ++ secondary_attrs) weather_pairs
      = core_attrs ++ secondary_attrs ++ weather_pairs := by
    refine dictUpdate_eq_append _ _ ?_
    refine List.Nodup.sublist ?_ h
    simp only [dictKeys, List.map_append, ← List.append_assoc]
    exact List.sublist_append_left _ _
  have h3 : dictUpdate (core_attrs ++ secondary_attrs ++ weather_pairs) soil_pairs
      = core_attrs ++ secondary_attrs ++ weather_pairs ++ soil_pairs := by
    refine dictUpdate_eq_append _ _ ?_
    simpa [dictKeys, List.append_assoc] using h
  show dictUpdate (dictUpdate (dictUpdate core_attrs secondary_attrs)
      get_weather_types) get_soil_temps = all_attrs
  rw [get_weather_types_eq, get_soil_temps_eq, h1, h2, h3]
  rfl

/-- In core mode the catalog is exactly the five-entry core dict. -/
theorem get_data_attrs_false_eq : get_data_attrs false = core_attrs := rfl

/-! ## Claim theorems -/

set_option maxRecDepth 40000 in
/-- C5: the soil-temperature family contains exactly the 126 codes
crossing 9 ground covers, 7 depths and the two prefixes `sn`/`sx`, all
distinct; each code is the two-letter prefix, a 2-digit ground-cover
index below 9 and a 2-digit 1-based depth index between 1 and 7, and the
two indices are recovered from the code's two digit pairs
(`soilCodeCheck` re-encodes them and reproduces the code). -/
theorem C5_soil_family :
    (dictKeys get_soil_temps).length = 126 ∧
    (dictKeys get_soil_temps).Nodup ∧
    (dictKeys get_soil_temps).all soilCodeCheck = true ∧
    dictKeys get_soil_temps =
      (List.range 9).flatMap (fun i => (List.range 7).flatMap (fun j =>
        ["sn" ++ pad2 i ++ pad2 (j + 1), "sx" ++ pad2 i ++ pad2 (j + 1)])) := by
  refine ⟨?_, ?_, ?_, ?_⟩
  · rw [get_soil_temps_eq]; decide
  · rw [get_soil_temps_eq]; exact soil_keys_nat_nodup.of_map
  · rw [get_soil_temps_eq]; decide
  · rw [get_soil_temps_eq]; decide

set_option maxRecDepth 40000 in
/-- C6: the weather-type family consists of exactly the 22 codes
`wt01`..`wt22` and exactly the 5 codes `wv01`, `wv03`, `wv07`, `wv18`,
`wv20`, nothing else, and each `wv` entry carries the same `type`
description as the `wt` entry of the same index. -/
theorem C6_weather_family :
    (dictKeys get_weather_types).filter (fun k => code_group k == "wt")
      = (List.range' 1 22).map (fun i => "wt" ++ pad2 i) ∧
    (dictKeys get_weather_types).filter (fun k => code_group k == "wv")
      = ["wv01", "wv03", "wv07", "wv18", "wv20"] ∧
    (dictKeys get_weather_types).length = 27 ∧
    ([1, 3, 7, 18, 20].all (fun i =>
      ((dictLookup get_weather_types ("wv" ++ pad2 i)).bind
          (fun a => dictLookup a "type"))
        == ((dictLookup get_weather_types ("wt" ++ pad2 i)).bind
          (fun a => dictLookup a "type")))) = true := by
  refine ⟨?_, ?_, ?_, ?_⟩
  · rw [get_weather_types_eq]; decide
  · rw [get_weather_types_eq]; decide
  · rw [get_weather_types_eq]; decide
  · rw [get_weather_types_eq]; decide

/-- C10: the core catalog holds exactly the five core codes, and the
all-variables catalog maps each of them to the identical record. -/
theorem C10_conservative_extension :
    dictKeys (get_data_attrs false) = ["tmin", "tmax", "prcp", "snow", "snwd"] ∧
    (["tmin", "tmax", "prcp", "snow", "snwd"].all (fun k =>
      dictLookup (get_data_attrs true) k == dictLookup (get_data_attrs false) k)) = true := by
  refine ⟨rfl, ?_⟩
  rw [get_data_attrs_true_eq, get_data_attrs_false_eq]
  decide

/-- C7 counterexample: `wt01` is a catalog code whose record carries
neither a units string nor a standard name, and the `adpt` record has no
`long_name` key (its description key is "long name"), so not every
all-variables catalog entry is a record with units, standard name and
long description under the documented keys. -/
theorem C7_counterexample :
    "wt01" ∈ dictKeys (get_data_attrs true) ∧
    (dictLookup (get_data_attrs true) "wt01").map (fun a => dictContains a "units")
      = some false ∧
    (dictLookup (get_data_attrs true) "wt01").map (fun a => dictContains a "standard_name")
      = some false ∧
    (dictLookup (get_data_attrs true) "adpt").map (fun a => dictContains a "long_name")
      = some false := by
  rw [get_data_attrs_true_eq]
  refine ⟨by decide, by decide, by decide, by decide⟩

set_option maxRecDepth 40000 in
/-- C7 amended: every all-variables catalog entry carries a long
description and, outside the weather-type family, a units string and a
standard name; the weather-type (`wt`/`wv`) records carry only a long
name and a type, and `adpt` files its description under the key
"long name" instead of `long_name`. -/
theorem C7_amended_catalog_fields :
    ((get_data_attrs true).all (fun kv => attrsComplete kv.1 kv.2)) = true := by
  rw [get_data_attrs_true_eq]
  decide

/-- C1: on a 500 response to the first (full-history) search query the
prober does not return the `None` sentinel: the 500 branch only prints
and falls through, the second query is still issued, and when it succeeds
the prober returns a full availability result. -/
theorem C1_500_first_query_returns_result :
    checkStationData "USW00094728" 10 20 false c1env =
      .ok ⟨some ⟨core_vars, 10, 20, 10, 20, "TEST STATION"⟩, 2,
        ["Failed to retrieve data from USW00094728.",
         "500: Internal Server Error",
         "An error occurred"]⟩ := by
  rfl

/-- C8: when the first (full-history) search query answers 200 with an
empty results list, the prober returns the `None` sentinel having issued
exactly one query — the second, range-scoped query is never sent (the
outcome is the same for every environment agreeing at index 0). -/
theorem C8_empty_first_query (station : String) (s e : Nat) (all_vars : Bool)
    (env : Nat → TransportResult) (r : Response)
    (h0 : env 0 = .resp r) (h200 : r.status = 200) (hempty : r.results = []) :
    checkStationData station s e all_vars env =
      .ok ⟨none, 1, ["No data available for " ++ station ++ ". Check station ID."]⟩ := by
  unfold checkStationData
  rw [h0]
  simp [h200, hempty]

/-- C8 witness at a concrete environment. -/
theorem C8_empty_first_query_witness :
    checkStationData "USW00094728" 3 9 false emptyResultsEnv =
      .ok ⟨none, 1, ["No data available for USW00094728. Check station ID."]⟩ :=
  C8_empty_first_query "USW00094728" 3 9 false emptyResultsEnv _ rfl rfl rfl

/-- C3: on a successful probe the effective dates the prober returns are
exactly the clamped dates `adjustedStart`/`adjustedEnd`; the clamp maps a
range strictly containing the station coverage to exactly the coverage
range, leaves a range inside the coverage unchanged, and is idempotent. -/
theorem C3_clamping (station name : String) (lon lat : Int) (s e ss se : Nat) :
    proberValue (checkStationData station s e false (successEnv core_vars lon lat name ss se))
      = some ⟨core_vars, lon, lat, adjustedStart s ss, adjustedEnd e se, name⟩ ∧
    (s < ss → se < e → adjustedStart s ss = ss ∧ adjustedEnd e se = se) ∧
    (ss ≤ s → e ≤ se → adjustedStart s ss = s ∧ adjustedEnd e se = e) ∧
    adjustedStart (adjustedStart s ss) ss = adjustedStart s ss ∧
    adjustedEnd (adjustedEnd e se) se = adjustedEnd e se := by
  refine ⟨rfl, ?_, ?_, ?_, ?_⟩
  · intro h1 h2
    simp [adjustedStart, adjustedEnd, h1, h2]
  · intro h1 h2
    simp [adjustedStart, adjustedEnd, Nat.not_lt.mpr h1, Nat.not_lt.mpr h2]
  · unfold adjustedStart
    split <;> simp
  · unfold adjustedEnd
    split <;> simp

/-- C3 witness: a request strictly wider than coverage is clamped to the
coverage range. -/
theorem C3_clamping_witness :
    proberValue (checkStationData "USW00094728" 5 30 false
        (successEnv core_vars 1 2 "TEST STATION" 10 20))
      = some ⟨core_vars, 1, 2, adjustedStart 5 10, adjustedEnd 30 20, "TEST STATION"⟩ ∧
    adjustedStart 5 10 = 10 ∧ adjustedEnd 30 20 = 20 :=
  ⟨(C3_clamping "USW00094728" "TEST STATION" 1 2 5 30 10 20).1,
   (C3_clamping "USW00094728" "TEST STATION" 1 2 5 30 10 20).2.1
     (by decide) (by decide)⟩

lemma checkStationData_successEnv_eval (station name : String) (lon lat : Int)
    (s e ss se : Nat) (ds : List String) :
    checkStationData station s e false (successEnv ds lon lat name ss se)
      = (if (core_vars.filter (fun v => ds.contains v)).length = 0 then
          .ok ⟨none, 2,
            ["The station exists " ++ station
               ++ " and has data, but no core elements available.",
             "Core elements include: TMIN, TMAX, PRCP, SNOW, SNWD",
             "You may want to review the station page to find available data:",
             "https://www.ncdc.noaa.gov/cdo-web/datasets/GHCND/stations/GHCND:"
               ++ station ++ "/detail"]⟩
        else
          .ok ⟨some ⟨core_vars.filter (fun v => ds.contains v), lon, lat,
                adjustedStart s ss, adjustedEnd e se, name⟩, 2,
            (if (core_vars.filter (fun v => ds.contains v)).length < core_vars.length then
              ["Elements "
                 ++ joinComma (core_vars.filter (fun v =>
                      !((core_vars.filter (fun v2 => ds.contains v2)).contains v)))
                 ++ " not available at " ++ station ++ " for dates "
                 ++ toString s ++ "-" ++ toString e ++ ".",
               "Available elements: " ++ joinComma (core_vars.filter (fun v => ds.contains v))]
            else [])
            ++ (if s < ss then
                 ["Adjusted start date to " ++ toString (adjustedStart s ss) ++ " at station "
                    ++ station ++ " based on available data."] else [])
            ++ (if se < e then
                 ["Adjusted end date to " ++ toString (adjustedEnd e se) ++ " at station "
                    ++ station ++ " based on available data."] else [])⟩) := by rfl

lemma not_found_eq (ds : List String) :
    core_vars.filter (fun v => !((core_vars.filter (fun v2 => ds.contains v2)).contains v))
      = core_vars.filter (fun v => !(ds.contains v)) := by
  refine List.filter_congr (fun v hv => ?_)
  have h : ((core_vars.filter (fun v2 => ds.contains v2)).contains v) = (ds.contains v) := by
    by_cases hm : v ∈ ds <;> simp [List.mem_filter, hv, hm]
  rw [h]

/-- C4: in core-variable mode on a successful probe the resolved variable
list is the intersection of the service-reported list with the wanted
list {TMIN, TMAX, PRCP, SNOW, SNWD} kept in wanted-list order (a sublist
of it); when that intersection is a strict subset a note naming exactly
the missing variables is printed and the probe still succeeds; when it is
empty the prober returns the `None` sentinel. -/
theorem C4_core_mode (station name : String) (lon lat : Int) (s e ss se : Nat)
    (ds resolved : List String)
    (hres : resolved = core_vars.filter (fun v => ds.contains v)) :
    (resolved ≠ [] →
      proberValue (checkStationData station s e false (successEnv ds lon lat name ss se))
        = some ⟨resolved, lon, lat, adjustedStart s ss, adjustedEnd e se, name⟩) ∧
    (∀ v, v ∈ resolved ↔ v ∈ core_vars ∧ v ∈ ds) ∧
    List.Sublist resolved core_vars ∧
    (resolved ≠ [] → resolved ≠ core_vars →
      ("Elements " ++ joinComma (core_vars.filter (fun v => !(ds.contains v)))
         ++ " not available at " ++ station ++ " for dates "
         ++ toString s ++ "-" ++ toString e ++ ".")
        ∈ proberPrinted (checkStationData station s e false
            (successEnv ds lon lat name ss se))) ∧
    (resolved = [] →
      proberValue (checkStationData station s e false (successEnv ds lon lat name ss se))
        = none) := by
  subst hres
  refine ⟨?_, ?_, ?_, ?_, ?_⟩
  · intro hne
    rw [checkStationData_successEnv_eval,
      if_neg (fun h => hne (List.length_eq_zero.mp h))]
    rfl
  · intro v
    simp [List.mem_filter]
  · exact List.filter_sublist _
  · intro hne hneq
    have hle := (List.filter_sublist (p := fun v => ds.contains v) core_vars).length_le
    have hlt : (core_vars.filter (fun v => ds.contains v)).length < core_vars.length := by
      rcases Nat.lt_or_ge (core_vars.filter (fun v => ds.contains v)).length
          core_vars.length with h | h
      · exact h
      · exact absurd ((List.filter_sublist _).eq_of_length (Nat.le_antisymm hle h)) hneq
    rw [checkStationData_successEnv_eval,
      if_neg (fun h => hne (List.length_eq_zero.mp h))]
    show _ ∈ proberPrinted (.ok _)
    simp only [proberPrinted, if_pos hlt, not_found_eq]
    exact List.mem_append_left _ (List.mem_cons_self _ _)
  · intro hz
    rw [checkStationData_successEnv_eval, if_pos (by rw [hz]; rfl)]
    rfl

/-- C4 witness: the service reports TMIN, TMAX and PRCP only; the
resolved list is exactly those three and the note names SNOW and SNWD. -/
theorem C4_core_mode_witness :
    proberValue (checkStationData "USW00094728" 3 9 false
        (successEnv ["TMIN", "TMAX", "PRCP"] 1 2 "TEST STATION" 0 50))
      = some ⟨["TMIN", "TMAX", "PRCP"], 1, 2, adjustedStart 3 0, adjustedEnd 9 50,
          "TEST STATION"⟩ ∧
    ("Elements " ++ joinComma ["SNOW", "SNWD"] ++ " not available at USW00094728 for dates 3-9.")
      ∈ proberPrinted (checkStationData "USW00094728" 3 9 false
          (successEnv ["TMIN", "TMAX", "PRCP"] 1 2 "TEST STATION" 0 50)) := by
  have h := C4_core_mode "USW00094728" "TEST STATION" 1 2 3 9 0 50
    ["TMIN", "TMAX", "PRCP"] (core_vars.filter
      (fun v => (["TMIN", "TMAX", "PRCP"] : List String).contains v)) rfl
  refine ⟨?_, ?_⟩
  · have := h.1 (by decide)
    rw [show core_vars.filter
        (fun v => (["TMIN", "TMAX", "PRCP"] : List String).contains v)
        = ["TMIN", "TMAX", "PRCP"] from rfl] at this
    exact this
  · have := h.2.2.2.1 (by decide) (by decide)
    rw [show core_vars.filter
        (fun v => !((["TMIN", "TMAX", "PRCP"] : List String).contains v))
        = ["SNOW", "SNWD"] from rfl] at this
    rw [show joinComma ["SNOW", "SNWD"] = "SNOW, SNWD" from rfl]
    rw [show ("Elements " ++ "SNOW, SNWD"
        ++ " not available at USW00094728 for dates 3-9." : String)
        = "Elements SNOW, SNWD not available at USW00094728 for dates "
          ++ toString 3 ++ "-" ++ toString 9 ++ "." from rfl]
    exact this

set_option maxHeartbeats 2000000 in
lemma checkStationData_resp_ok (station : String) (s e : Nat) (av : Bool)
    (env : Nat → TransportResult) (r1 r2 : Response)
    (h0 : env 0 = .resp r1) (h1 : env 1 = .resp r2) :
    ∃ out, checkStationData station s e av env = .ok out := by
  unfold checkStationData
  rw [h0, h1]
  dsimp only
  repeat' split
  all_goals exact ⟨_, rfl⟩

set_option maxHeartbeats 2000000 in
lemma checkStationData_t1_shape (station : String) (s e : Nat) (av : Bool)
    (env : Nat → TransportResult) (r1 : Response)
    (h0 : env 0 = .resp r1) (h1 : env 1 = .timeout) :
    (∃ out, checkStationData station s e av env = .ok out) ∨
    checkStationData station s e av env = .error .timeoutError := by
  unfold checkStationData
  rw [h0, h1]
  dsimp only
  repeat' split
  all_goals first
    | exact Or.inl ⟨_, rfl⟩
    | exact Or.inr rfl

lemma checkStationData_error_shape (station : String) (s e : Nat) (av : Bool)
    (env : Nat → TransportResult) (ex : PyExc)
    (h : checkStationData station s e av env = .error ex) : ex = .timeoutError := by
  cases h0 : env 0 with
  | timeout =>
    unfold checkStationData at h
    rw [h0] at h
    simp at h
    exact h.symm
  | resp r1 =>
    cases h1 : env 1 with
    | timeout =>
      rcases checkStationData_t1_shape station s e av env r1 h0 h1 with ⟨out, hout⟩ | hout
      · rw [hout] at h
        exact Except.noConfusion h
      · rw [hout] at h
        injection h with h2
        exact h2.symm
    | resp r2 =>
      obtain ⟨out, hout⟩ := checkStationData_resp_ok station s e av env r1 r2 h0 h1
      rw [hout] at h
      exact Except.noConfusion h

lemma attachAttrs_error_shape (l : List String) (cat : PyDict AttrRecord) (ex : PyExc)
    (h : attachAttrs l cat = .error ex) : ∃ k, ex = .keyError k := by
  induction l with
  | nil => simp [attachAttrs] at h
  | cons v vs ih =>
    unfold attachAttrs at h
    cases hv : dictLookup cat v with
    | none =>
      rw [hv] at h
      injection h with h2
      exact ⟨v, h2.symm⟩
    | some a =>
      rw [hv] at h
      cases hrec : attachAttrs vs cat with
      | error e2 =>
        rw [hrec] at h
        injection h with h2
        rw [h2] at hrec
        exact ih hrec
      | ok rest =>
        rw [hrec] at h
        exact Except.noConfusion h

lemma processStation_error_shape (station : String) (s e : Nat) (av : Bool)
    (env : Nat → TransportResult) (ex : PyExc)
    (h : processStation station s e av env = .error ex) :
    ex = .timeoutError ∨ ∃ k, ex = .keyError k := by
  unfold processStation at h
  split at h
  · next e1 heq =>
      injection h with h2
      exact Or.inl (h2 ▸ checkStationData_error_shape station s e av env e1 heq)
  · next out heq =>
      split at h
      · exact Except.noConfusion h
      · next pr hpr =>
          split at h
          · injection h with h2
            exact Or.inl h2.symm
          · next r h2r =>
              split at h
              · exact Except.noConfusion h
              · split at h
                · exact Except.noConfusion h
                · split at h
                  · next e2 ha =>
                      injection h with h2
                      exact Or.inr (h2 ▸ attachAttrs_error_shape _ _ _ ha)
                  · exact Except.noConfusion h

/-- C2 amended: a prober `None` sentinel is caught at the per-station
boundary (the station is skipped with its diagnostics and processing can
continue), and the only exceptions the per-station body can raise are a
transport timeout and a catalog `KeyError` — but such an exception is not
caught: it aborts the whole loop, so the remaining stations are never
processed. -/
theorem C2_exception_boundary :
    (∀ (station : String) (s e : Nat) (av : Bool) (env : Nat → TransportResult)
        (out : ProbeOut),
      checkStationData station s e av env = .ok out → out.result = none →
      processStation station s e av env = .ok ⟨none, out.printed⟩) ∧
    (∀ (station : String) (s e : Nat) (av : Bool) (env : Nat → TransportResult)
        (ex : PyExc),
      processStation station s e av env = .error ex →
      ex = .timeoutError ∨ ∃ k, ex = .keyError k) ∧
    (∀ (st : String) (rest : List String) (s e : Nat) (av : Bool)
        (env : String → Nat → TransportResult) (ex : PyExc),
      processStation st s e av (env st) = .error ex →
      runStations (st :: rest) s e av env = .error ex) := by
  refine ⟨?_, processStation_error_shape, ?_⟩
  · intro station s e av env out hc hr
    unfold processStation
    rw [hc]
    split
    · next e heq => exact Except.noConfusion heq
    · next out2 heq =>
        injection heq with heq2
        subst heq2
        split
        · rfl
        · next pr hpr =>
            rw [hr] at hpr
            exact Option.noConfusion hpr
  · intro st rest s e av env ex h
    unfold runStations
    rw [h]

/-- C2 witness: a prober sentinel is converted to skip-and-continue. -/
theorem C2_exception_boundary_witness :
    processStation "USW00094729" 0 5 false emptyResultsEnv =
      .ok ⟨none, ["No data available for USW00094729. Check station ID."]⟩ :=
  C2_exception_boundary.1 "USW00094729" 0 5 false emptyResultsEnv
    ⟨none, 1, ["No data available for USW00094729. Check station ID."]⟩ rfl rfl

/-- C2 counterexample: a request timeout on the first station aborts the
loop before the second station (the claim says it would be skipped), and
a service-reported variable absent from the catalog raises `KeyError`
out of the loop. -/
theorem C2_uncaught_exceptions :
    runStations ["STA", "STB"] 0 10 false c2envTimeout = .error .timeoutError ∧
    runStations ["STA"] 0 100 true c2envUnknownVar = .error (.keyError "xyzw") := by
  constructor
  · rfl
  · have hattach : attachAttrs (List.map pyLower ["XYZW"]) (get_data_attrs true)
        = .error (.keyError "xyzw") := by
      rw [get_data_attrs_true_eq]; rfl
    have hps : processStation "STA" 0 100 true (c2envUnknownVar "STA")
        = .error (.keyError "xyzw") := by
      unfold processStation
      rw [show checkStationData "STA" 0 100 true (c2envUnknownVar "STA")
          = .ok ⟨some ⟨["XYZW"], 10, 20, 0, 100, "TEST STATION"⟩, 2, []⟩ from rfl]
      dsimp only [c2envUnknownVar, successEnv]
      rw [if_neg (by decide : ¬((200 : Nat) ≠ 200)), if_neg (by decide : ¬((1 : Nat) = 0)),
        hattach]
    unfold runStations
    rw [hps]

/-- C9: when either date argument fails `YYYY-MM-DD` validation the
program raises `ValueError` at startup — the outcome does not depend on
the transport environment or on the date reading, so no station is
processed and no query is issued; with well-formed dates the validation
changes nothing and the selected per-station loop runs. -/
theorem C9_date_validation (args : Args) (dateOrd d2 : String → Nat)
    (env env2 : String → Nat → TransportResult) :
    ((validYMD args.start && validYMD args.endDate) = false →
      runMain args dateOrd env = .error .valueError ∧
      runMain args dateOrd env = runMain args d2 env2) ∧
    ((validYMD args.start && validYMD args.endDate) = true →
      runMain args dateOrd env =
        (if args.info then
          runInfo args.station (dateOrd args.start) (dateOrd args.endDate) args.all env
        else
          runStations args.station (dateOrd args.start) (dateOrd args.endDate) args.all env)) := by
  constructor
  · intro h
    constructor <;> simp [runMain, h]
  · intro h
    simp [runMain, h]

/-- C9 witness: a malformed month ("2020-13-01") is fatal at startup,
independently of the environment. -/
theorem C9_date_validation_witness :
    runMain c9badArgs (fun _ => 0) c2envTimeout = .error .valueError :=
  ((C9_date_validation c9badArgs (fun _ => 0) (fun _ => 1)
      c2envTimeout c2envTimeout).1 (by decide)).1
